import Mathlib

/-!
A shallow embedding of the fire-risk data service of the forest-fire-prediction
backend, together with proofs of its behavioural properties.

Numbers that the backend stores as floats (risk levels, thresholds, coordinates)
are modelled as rationals; timestamps are modelled as integers (seconds).
Database tables are lists in insertion order; SQL queries become list
operations: `WHERE` is `List.filter`, `ORDER BY ... DESC` is a merge sort on the
reversed order, `OFFSET`/`LIMIT` are `List.drop`/`List.take`, and `first()` is
`List.head?`.  The randomness used by the demo prediction endpoint is passed in
explicitly as an oracle record.
-/

namespace ForestFire

/-- A stored fire-risk zone row (`models.FireRiskZone`). -/
structure FireRiskZone where
  id : Nat
  region_name : String
  latitude : ℚ
  longitude : ℚ
  risk_level : ℚ
  risk_category : String
  timestamp : Int
  temperature : Option ℚ
  humidity : Option ℚ
  wind_speed : Option ℚ
  precipitation : Option ℚ
  vegetation_density : Option ℚ
  vegetation_type : Option String
  soil_moisture : Option ℚ
  prediction_model : String
  confidence_score : ℚ
deriving DecidableEq

/-- A stored fire-incident row (`models.FireIncident`). -/
structure FireIncident where
  id : Nat
  risk_zone_id : Nat
  latitude : ℚ
  longitude : ℚ
  start_date : Int
  end_date : Option Int
  severity : String
  area_affected : Option ℚ
  status : String
  source : String
  description : Option String
deriving DecidableEq

/-- A stored saved-region row (`models.SavedRegion`). -/
structure SavedRegion where
  id : Nat
  user_id : Nat
  region_name : String
  latitude : ℚ
  longitude : ℚ
  created_at : Int
  alert_threshold : ℚ
deriving DecidableEq

/-- A stored alert row (`models.Alert`). -/
structure Alert where
  id : Nat
  user_id : Nat
  risk_zone_id : Nat
  alert_time : Int
  risk_level : ℚ
  message : String
  is_read : Bool
  is_sent_email : Bool
  is_sent_sms : Bool
deriving DecidableEq

/-- The fields of `models.User` that the fire-risk endpoints consult.
`alert_threshold` is `none` when the column is NULL. -/
structure User where
  id : Nat
  is_superuser : Bool
  alert_threshold : Option ℚ
deriving DecidableEq

/-- The relational state touched by the fire-risk service: the four tables,
each a list in insertion order. -/
structure DB where
  fire_risk_zones : List FireRiskZone
  fire_incidents : List FireIncident
  saved_regions : List SavedRegion
  alerts : List Alert
deriving DecidableEq

/-- Containment of `pat` as a contiguous run inside `hay`. -/
def charSub (pat : List Char) : List Char → Bool
  | [] => pat.isEmpty
  | c :: t => pat.isPrefixOf (c :: t) || charSub pat t

/-- SQL `column ILIKE '%pat%'`: case-insensitive substring containment. -/
def strILike (hay pat : String) : Bool :=
  charSub pat.toLower.data hay.toLower.data

/-- Row predicate accumulated by `get_fire_risk_zones` in
`fire_risk_service.py`: `min_risk_level`/`max_risk_level` use `is not None`
guards, while `region_name` and `risk_category` use Python truthiness, so an
empty string disables those filters. -/
def zoneFilter (min_risk_level max_risk_level : Option ℚ)
    (region_name risk_category : Option String) (z : FireRiskZone) : Bool :=
  (match min_risk_level with
   | none => true
   | some m => decide (m ≤ z.risk_level)) &&
  (match max_risk_level with
   | none => true
   | some m => decide (z.risk_level ≤ m)) &&
  (match region_name with
   | none => true
   | some s => if s = "" then true else strILike z.region_name s) &&
  (match risk_category with
   | none => true
   | some c => if c = "" then true else decide (z.risk_category = c))

/-- `get_fire_risk_zones`: filter, `ORDER BY risk_level DESC`, then
offset/limit. -/
def get_fire_risk_zones (db : DB) (skip limit : Nat)
    (min_risk_level max_risk_level : Option ℚ)
    (region_name risk_category : Option String) : List FireRiskZone :=
  ((((db.fire_risk_zones.filter
      (zoneFilter min_risk_level max_risk_level region_name risk_category)).mergeSort
      (fun a b => decide (b.risk_level ≤ a.risk_level))).drop skip).take limit)

/-- The `between` filter of `get_fire_risk_zone_by_coords`: the zone's
coordinates lie in the tolerance box around the query point. -/
def coordFilter (latitude longitude tolerance : ℚ) (z : FireRiskZone) : Bool :=
  decide (latitude - tolerance ≤ z.latitude) &&
  decide (z.latitude ≤ latitude + tolerance) &&
  decide (longitude - tolerance ≤ z.longitude) &&
  decide (z.longitude ≤ longitude + tolerance)

/-- The spec's phrasing of the same test: the box
`[z.latitude - tol, z.latitude + tol] × [z.longitude - tol, z.longitude + tol]`
around the stored zone contains the query point. -/
def zoneBoxContains (z : FireRiskZone) (lat lon tol : ℚ) : Prop :=
  z.latitude - tol ≤ lat ∧ lat ≤ z.latitude + tol ∧
  z.longitude - tol ≤ lon ∧ lon ≤ z.longitude + tol

/-- `get_fire_risk_zone_by_coords`: filter by the coordinate box,
`ORDER BY timestamp DESC`, take the first row. -/
def get_fire_risk_zone_by_coords (db : DB) (latitude longitude tolerance : ℚ) :
    Option FireRiskZone :=
  (((db.fire_risk_zones.filter (coordFilter latitude longitude tolerance)).mergeSort
      (fun a b => decide (b.timestamp ≤ a.timestamp))).head?)

/-- `get_fire_risk_zone`: lookup by primary key. -/
def get_fire_risk_zone (db : DB) (zone_id : Nat) : Option FireRiskZone :=
  (db.fire_risk_zones.filter (fun z => z.id == zone_id)).head?

/-- The payload of `schemas.FireRiskZoneCreate` before validation. -/
structure FireRiskZoneCreate where
  region_name : String
  latitude : ℚ
  longitude : ℚ
  risk_level : ℚ
  risk_category : String
  temperature : Option ℚ
  humidity : Option ℚ
  wind_speed : Option ℚ
  precipitation : Option ℚ
  vegetation_density : Option ℚ
  vegetation_type : Option String
  soil_moisture : Option ℚ
  prediction_model : String
  confidence_score : ℚ
deriving DecidableEq

/-- The allowed risk categories of the schema validator. -/
def validRiskCategories : List String := ["Low", "Medium", "High"]

/-- The pydantic validators of `schemas.FireRiskZoneBase`: `risk_level` must be
in `[0, 1]` and `risk_category` one of Low/Medium/High; the first violated
check raises. -/
def validateFireRiskZone (c : FireRiskZoneCreate) :
    Except String FireRiskZoneCreate :=
  if c.risk_level < 0 ∨ c.risk_level > 1 then
    Except.error ("Risk level must be between 0 and 1")
  else if c.risk_category ∉ validRiskCategories then
    Except.error ("Risk category must be one of Low, Medium, High")
  else
    Except.ok c

/-- Fresh primary key for a new zone row (autoincrement). -/
def freshZoneId (db : DB) : Nat :=
  (db.fire_risk_zones.map FireRiskZone.id).foldr max 0 + 1

/-- Fresh primary key for a new alert row (autoincrement). -/
def freshAlertId (db : DB) : Nat :=
  (db.alerts.map Alert.id).foldr max 0 + 1

/-- `create_fire_risk_zone` in `fire_risk_service.py`: insert a row built from
the (already validated) payload; the `timestamp` column defaults to the current
time and the id is assigned by the database. -/
def create_fire_risk_zone (db : DB) (c : FireRiskZoneCreate) (now : Int) :
    FireRiskZone × DB :=
  let z : FireRiskZone := {
    id := freshZoneId db
    region_name := c.region_name
    latitude := c.latitude
    longitude := c.longitude
    risk_level := c.risk_level
    risk_category := c.risk_category
    timestamp := now
    temperature := c.temperature
    humidity := c.humidity
    wind_speed := c.wind_speed
    precipitation := c.precipitation
    vegetation_density := c.vegetation_density
    vegetation_type := c.vegetation_type
    soil_moisture := c.soil_moisture
    prediction_model := c.prediction_model
    confidence_score := c.confidence_score }
  (z, { db with fire_risk_zones := db.fire_risk_zones ++ [z] })

/-- The zone-creation pipeline seen by a caller: the schema validators run when
the request body is parsed into `FireRiskZoneCreate`, and only then does the
service insert.  On a validation failure nothing is inserted. -/
def create_fire_risk_zone_checked (db : DB) (c : FireRiskZoneCreate)
    (now : Int) : Except String FireRiskZone × DB :=
  match validateFireRiskZone c with
  | Except.error e => (Except.error e, db)
  | Except.ok v =>
    let r := create_fire_risk_zone db v now
    (Except.ok r.1, r.2)

/-- `delete_fire_risk_zone` in `fire_risk_service.py`: returns `False` and
changes nothing when the id is absent, otherwise removes the row found. -/
def delete_fire_risk_zone (db : DB) (zone_id : Nat) : Bool × DB :=
  match get_fire_risk_zone db zone_id with
  | none => (false, db)
  | some _ =>
    (true, { db with
      fire_risk_zones := db.fire_risk_zones.eraseP (fun z => z.id == zone_id) })

/-- `delete_saved_region` in `fire_risk_service.py`. -/
def delete_saved_region (db : DB) (region_id : Nat) : Bool × DB :=
  match (db.saved_regions.filter (fun r => r.id == region_id)).head? with
  | none => (false, db)
  | some _ =>
    (true, { db with
      saved_regions := db.saved_regions.eraseP (fun r => r.id == region_id) })

/-- The failure kinds surfaced by the endpoints as HTTP errors. -/
inductive ApiError
  | notFound : String → ApiError
  | forbidden : String → ApiError
  | serverError : String → ApiError
deriving DecidableEq

/-- The `DELETE /zones/id` endpoint in `endpoints/fire_risk.py`: 404 when the
zone does not exist, otherwise delegate to the service. -/
def delete_fire_risk_zone_endpoint (db : DB) (zone_id : Nat) :
    Except ApiError String × DB :=
  match get_fire_risk_zone db zone_id with
  | none => (Except.error (ApiError.notFound ("Fire risk zone not found")), db)
  | some _ =>
    let r := delete_fire_risk_zone db zone_id
    if r.1 then (Except.ok ("Fire risk zone deleted successfully"), r.2)
    else (Except.error (ApiError.serverError ("Error deleting fire risk zone")), r.2)

/-- The `DELETE /regions/saved/id` endpoint in `endpoints/fire_risk.py`:
404 when absent, 403 when the requester neither owns the region nor is a
superuser, otherwise delegate to the service. -/
def delete_saved_region_endpoint (db : DB) (region_id : Nat)
    (current_user : User) : Except ApiError String × DB :=
  match (db.saved_regions.filter (fun r => r.id == region_id)).head? with
  | none => (Except.error (ApiError.notFound ("Saved region not found")), db)
  | some region =>
    if region.user_id != current_user.id && !current_user.is_superuser then
      (Except.error (ApiError.forbidden ("Not enough permissions to delete this region")), db)
    else
      let r := delete_saved_region db region_id
      if r.1 then (Except.ok ("Saved region deleted successfully"), r.2)
      else (Except.error (ApiError.serverError ("Error deleting saved region")), r.2)

/-- Row predicate accumulated by `get_fire_incidents`: a non-empty
`region_name` adds an inner join through the owning zone, and the remaining
filters restrict date range, status and severity (the string filters again use
Python truthiness). -/
def incidentFilter (db : DB) (region_name : Option String)
    (start_date_from start_date_to : Option Int)
    (status severity : Option String) (i : FireIncident) : Bool :=
  (match region_name with
   | none => true
   | some s =>
     if s = "" then true
     else db.fire_risk_zones.any
       (fun z => z.id == i.risk_zone_id && strILike z.region_name s)) &&
  (match start_date_from with
   | none => true
   | some d => decide (d ≤ i.start_date)) &&
  (match start_date_to with
   | none => true
   | some d => decide (i.start_date ≤ d)) &&
  (match status with
   | none => true
   | some st => if st = "" then true else decide (i.status = st)) &&
  (match severity with
   | none => true
   | some sv => if sv = "" then true else decide (i.severity = sv))

/-- `get_fire_incidents`: filter (with the optional zone join),
`ORDER BY start_date DESC`, then offset/limit. -/
def get_fire_incidents (db : DB) (skip limit : Nat)
    (region_name : Option String) (start_date_from start_date_to : Option Int)
    (status severity : Option String) : List FireIncident :=
  ((((db.fire_incidents.filter
      (incidentFilter db region_name start_date_from start_date_to status severity)).mergeSort
      (fun a b => decide (b.start_date ≤ a.start_date))).drop skip).take limit)

/-- `get_saved_regions_by_user`: the user's rows in table order, then
offset/limit (the query has no `ORDER BY`; rows come back in insertion
order). -/
def get_saved_regions_by_user (db : DB) (user_id skip limit : Nat) :
    List SavedRegion :=
  (((db.saved_regions.filter (fun r => r.user_id == user_id)).drop skip).take limit)

/-- `create_alert_for_user` in `endpoints/predictions.py`: insert an alert row
with the given fields, all three notification flags false, and `alert_time`
defaulted to the current time. -/
def create_alert_for_user (db : DB) (user_id risk_zone_id : Nat)
    (risk_level : ℚ) (message : String) (now : Int) : Alert × DB :=
  let alert : Alert := {
    id := freshAlertId db
    user_id := user_id
    risk_zone_id := risk_zone_id
    alert_time := now
    risk_level := risk_level
    message := message
    is_read := false
    is_sent_email := false
    is_sent_sms := false }
  (alert, { db with alerts := db.alerts ++ [alert] })

/-- The alert guard of `predict_fire_risk_zone`:
`current_user.alert_threshold and risk_level >= current_user.alert_threshold`.
In Python both `None` and `0.0` are falsy, so a missing or zero threshold
short-circuits the conjunction to false. -/
def alertGuard (alert_threshold : Option ℚ) (risk_level : ℚ) : Bool :=
  match alert_threshold with
  | none => false
  | some t => if t = 0 then false else decide (t ≤ risk_level)

/-- The values drawn from `random` by the demo prediction endpoint, passed in
as an explicit oracle. -/
structure RandomDraws where
  risk_level : ℚ
  temperature : ℚ
  humidity : ℚ
  wind_speed : ℚ
  precipitation : ℚ
  vegetation_density : ℚ
  vegetation_type : String
  soil_moisture : ℚ
  confidence_score : ℚ
deriving DecidableEq

/-- The category banding in `predict_fire_risk_zone`. -/
def riskCategoryFor (risk_level : ℚ) : String :=
  if risk_level > 0.7 then "High"
  else if risk_level > 0.4 then "Medium"
  else "Low"

/-- The fallback region name built from the coordinates (the exact float
formatting of the f-string is immaterial here). -/
def defaultRegionName (latitude longitude : ℚ) : String :=
  "Region near " ++ toString latitude ++ ", " ++ toString longitude

/-- The alert message built by `predict_fire_risk_zone`. -/
def alertMessageFor (region_name : String) (risk_level : ℚ) : String :=
  "High fire risk detected in " ++ region_name ++ ". Risk level: " ++
    toString risk_level

/-- One hour, in the seconds used for timestamps. -/
def oneHour : Int := 3600

/-- The no-recent-prediction path of `predict_fire_risk_zone`: build a payload
from the drawn values, insert the zone, and create an alert when the guard
passes. -/
def predictFreshPath (db : DB) (latitude longitude : ℚ)
    (request_region_name : Option String) (current_user : User) (now : Int)
    (draws : RandomDraws) : FireRiskZone × DB :=
  let risk_level := draws.risk_level
  let c : FireRiskZoneCreate := {
    region_name := request_region_name.getD (defaultRegionName latitude longitude)
    latitude := latitude
    longitude := longitude
    risk_level := risk_level
    risk_category := riskCategoryFor risk_level
    temperature := some draws.temperature
    humidity := some draws.humidity
    wind_speed := some draws.wind_speed
    precipitation := some draws.precipitation
    vegetation_density := some draws.vegetation_density
    vegetation_type := some draws.vegetation_type
    soil_moisture := some draws.soil_moisture
    prediction_model := "DemoRandomModel"
    confidence_score := draws.confidence_score }
  let zdb := create_fire_risk_zone db c now
  if alertGuard current_user.alert_threshold risk_level then
    let adb := create_alert_for_user zdb.2 current_user.id zdb.1.id risk_level
      (alertMessageFor zdb.1.region_name risk_level) now
    (zdb.1, adb.2)
  else
    (zdb.1, zdb.2)

/-- `predict_fire_risk_zone` in `endpoints/predictions.py`: look for an
existing zone in the default 0.01-degree box; if the freshest such zone is
less than one hour old return it unchanged, otherwise run the creation path. -/
def predict_fire_risk_zone (db : DB) (latitude longitude : ℚ)
    (request_region_name : Option String) (current_user : User) (now : Int)
    (draws : RandomDraws) : FireRiskZone × DB :=
  match get_fire_risk_zone_by_coords db latitude longitude 0.01 with
  | some z =>
    if now - oneHour < z.timestamp then (z, db)
    else predictFreshPath db latitude longitude request_region_name
      current_user now draws
  | none => predictFreshPath db latitude longitude request_region_name
      current_user now draws

/-! ### Sample data used to instantiate the theorems -/

/-- A sample stored zone at the origin. -/
def zoneA : FireRiskZone := {
  id := 1
  region_name := "Alpha"
  latitude := 0
  longitude := 0
  risk_level := 1
  risk_category := "High"
  timestamp := 1000
  temperature := none
  humidity := none
  wind_speed := none
  precipitation := none
  vegetation_density := none
  vegetation_type := none
  soil_moisture := none
  prediction_model := "m"
  confidence_score := 1 }

/-- A sample database holding just `zoneA`. -/
def dbA : DB := {
  fire_risk_zones := [zoneA]
  fire_incidents := []
  saved_regions := []
  alerts := [] }

/-- A sample saved region owned by user 5. -/
def regionA : SavedRegion := {
  id := 1
  user_id := 5
  region_name := "Alpha"
  latitude := 0
  longitude := 0
  created_at := 1000
  alert_threshold := 1 }

/-- A sample database holding just `regionA`. -/
def dbR : DB := {
  fire_risk_zones := []
  fire_incidents := []
  saved_regions := [regionA]
  alerts := [] }

/-- A non-owning, non-superuser requester. -/
def uStranger : User := {
  id := 6
  is_superuser := false
  alert_threshold := none }

/-- A sample authenticated user. -/
def userA : User := {
  id := 7
  is_superuser := false
  alert_threshold := some 1 }

/-- A sample oracle of drawn values. -/
def drawsA : RandomDraws := {
  risk_level := 1
  temperature := 20
  humidity := 50
  wind_speed := 5
  precipitation := 0
  vegetation_density := 1
  vegetation_type := "Forest"
  soil_moisture := 1
  confidence_score := 1 }

/-- A sample valid creation payload. -/
def createA : FireRiskZoneCreate := {
  region_name := "Alpha"
  latitude := 0
  longitude := 0
  risk_level := 1
  risk_category := "High"
  temperature := none
  humidity := none
  wind_speed := none
  precipitation := none
  vegetation_density := none
  vegetation_type := none
  soil_moisture := none
  prediction_model := "m"
  confidence_score := 1 }

/-! ### Helper lemmas -/

/-- A list has a member exactly when it is non-empty. -/
theorem exists_mem_iff_ne_nil {α : Type} {l : List α} :
    (∃ a, a ∈ l) ↔ l ≠ [] := by
  cases l with
  | nil => simp
  | cons a t => simp [List.mem_cons]

/-- `head?` hits a member of the list. -/
theorem mem_of_head?_eq {α : Type} {l : List α} {a : α}
    (h : l.head? = some a) : a ∈ l := by
  cases l with
  | nil => simp at h
  | cons b t =>
    simp only [List.head?_cons, Option.some.injEq] at h
    exact h ▸ List.mem_cons_self b t

/-- In a list that is pairwise decreasing under a key, the head bounds every
member from above. -/
theorem key_le_head_of_pairwise {α β : Type} [Preorder β] {key : α → β}
    {l : List α} {w : α}
    (hp : l.Pairwise (fun a b => key b ≤ key a)) (hw : l.head? = some w) :
    ∀ z ∈ l, key z ≤ key w := by
  cases l with
  | nil => simp at hw
  | cons a t =>
    simp only [List.head?_cons, Option.some.injEq] at hw
    subst hw
    intro z hz
    rcases List.mem_cons.mp hz with h | h
    · exact h ▸ le_refl _
    · exact (List.pairwise_cons.mp hp).1 z h

/-- Sorting with the reversed comparison on a key yields a pairwise
non-increasing list. -/
theorem pairwise_mergeSort_key_desc {α β : Type} [LinearOrder β]
    (key : α → β) (l : List α) :
    (l.mergeSort (fun a b => decide (key b ≤ key a))).Pairwise
      (fun a b => key b ≤ key a) := by
  have h := @List.sorted_mergeSort α (fun a b => decide (key b ≤ key a))
    (fun a b c hab hbc => by
      simp only [decide_eq_true_eq] at hab hbc ⊢
      exact le_trans hbc hab)
    (fun a b => by
      simp only [Bool.or_eq_true, decide_eq_true_eq]
      exact le_total (key b) (key a))
    l
  exact h.imp (fun hab => of_decide_eq_true hab)

/-- The coordinate filter of the source and the box phrasing of the spec agree
row by row. -/
theorem coordFilter_iff_zoneBoxContains (lat lon tol : ℚ) (z : FireRiskZone) :
    coordFilter lat lon tol z = true ↔ zoneBoxContains z lat lon tol := by
  simp only [coordFilter, zoneBoxContains, Bool.and_eq_true, decide_eq_true_eq]
  constructor
  · rintro ⟨⟨⟨h1, h2⟩, h3⟩, h4⟩
    refine ⟨by linarith, by linarith, by linarith, by linarith⟩
  · rintro ⟨h1, h2, h3, h4⟩
    refine ⟨⟨⟨by linarith, by linarith⟩, by linarith⟩, by linarith⟩

/-- Characterisation of `get_fire_risk_zone_by_coords`: it is populated exactly
when some stored zone passes the coordinate filter, and any returned zone is a
stored matching zone whose timestamp bounds every matching zone's. -/
theorem by_coords_characterisation (db : DB) (lat lon tol : ℚ) :
    ((∃ z ∈ db.fire_risk_zones, coordFilter lat lon tol z = true) ↔
      ∃ w, get_fire_risk_zone_by_coords db lat lon tol = some w) ∧
    (∀ w, get_fire_risk_zone_by_coords db lat lon tol = some w →
      w ∈ db.fire_risk_zones ∧ coordFilter lat lon tol w = true ∧
      ∀ z ∈ db.fire_risk_zones, coordFilter lat lon tol z = true →
        z.timestamp ≤ w.timestamp) := by
  have hperm :
      ((db.fire_risk_zones.filter (coordFilter lat lon tol)).mergeSort
        (fun a b => decide (b.timestamp ≤ a.timestamp))).Perm
        (db.fire_risk_zones.filter (coordFilter lat lon tol)) :=
    List.mergeSort_perm _ _
  have hpair :=
    pairwise_mergeSort_key_desc (fun z : FireRiskZone => z.timestamp)
      (db.fire_risk_zones.filter (coordFilter lat lon tol))
  constructor
  · constructor
    · rintro ⟨z, hz, hfz⟩
      have hzm : z ∈ (db.fire_risk_zones.filter (coordFilter lat lon tol)).mergeSort
          (fun a b => decide (b.timestamp ≤ a.timestamp)) :=
        hperm.mem_iff.mpr (List.mem_filter.mpr ⟨hz, hfz⟩)
      have hne := exists_mem_iff_ne_nil.mp ⟨z, hzm⟩
      cases hh : (db.fire_risk_zones.filter (coordFilter lat lon tol)).mergeSort
          (fun a b => decide (b.timestamp ≤ a.timestamp)) with
      | nil => exact absurd hh hne
      | cons a t => exact ⟨a, by simp [get_fire_risk_zone_by_coords, hh]⟩
    · rintro ⟨w, hw⟩
      have hwm := mem_of_head?_eq hw
      have : w ∈ db.fire_risk_zones.filter (coordFilter lat lon tol) :=
        hperm.mem_iff.mp hwm
      rcases List.mem_filter.mp this with ⟨h1, h2⟩
      exact ⟨w, h1, h2⟩
  · intro w hw
    have hwm := mem_of_head?_eq hw
    have hwf : w ∈ db.fire_risk_zones.filter (coordFilter lat lon tol) :=
      hperm.mem_iff.mp hwm
    rcases List.mem_filter.mp hwf with ⟨h1, h2⟩
    refine ⟨h1, h2, ?_⟩
    intro z hz hfz
    have hzm : z ∈ (db.fire_risk_zones.filter (coordFilter lat lon tol)).mergeSort
        (fun a b => decide (b.timestamp ≤ a.timestamp)) :=
      hperm.mem_iff.mpr (List.mem_filter.mpr ⟨hz, hfz⟩)
    exact key_le_head_of_pairwise hpair hw z hzm

/-- Under unique keys, erasing the first row with a given key is the same as
filtering out every row with that key. -/
theorem eraseP_eq_filter_of_nodup_keys {α : Type} (key : α → Nat)
    (l : List α) (k : Nat) (h : (l.map key).Nodup) :
    l.eraseP (fun a => key a == k) = l.filter (fun a => !(key a == k)) := by
  induction l with
  | nil => rfl
  | cons a t ih =>
    simp only [List.map_cons, List.nodup_cons, List.mem_map] at h
    by_cases hk : key a = k
    · have hfilter : t.filter (fun x => !(key x == k)) = t := by
        apply List.filter_eq_self.mpr
        intro x hx
        have : key x ≠ k := by
          intro hxk
          exact h.1 ⟨x, hx, hxk.trans hk.symm⟩
        simp [this]
      simp [List.eraseP_cons, List.filter_cons, hk, hfilter]
    · simp [List.eraseP_cons, List.filter_cons, hk, ih h.2]

/-! ### Claim theorems -/

/-- C1 counterexample: at threshold `t = 0` and risk level `r = 1` the claim
"the guard is true iff `r ≥ t`" fails, because the Python guard
`current_user.alert_threshold and ...` treats a `0.0` threshold as falsy. -/
theorem C1_counterexample :
    ¬ (alertGuard (some 0) 1 = true ↔ (0 : ℚ) ≤ 1) := by
  intro h
  have := h.mpr (by norm_num)
  simp [alertGuard] at this

/-- C1 (amended): for `r, t ∈ [0, 1]`, the alert guard of the zone-prediction
workflow is true iff `t ≠ 0` and `r ≥ t`; boundary equality holds for every
non-zero threshold, but a zero threshold is falsy in Python and never fires. -/
theorem C1_alert_guard_amended (r t : ℚ) (_hr0 : 0 ≤ r) (_hr1 : r ≤ 1)
    (_ht0 : 0 ≤ t) (_ht1 : t ≤ 1) :
    alertGuard (some t) r = true ↔ (t ≠ 0 ∧ t ≤ r) := by
  by_cases h : t = 0
  · simp [alertGuard, h]
  · simp [alertGuard, h]

/-- C1 witness: the amended guard at `r = 1`, `t = 1`. -/
theorem C1_alert_guard_amended_witness :
    alertGuard (some 1) 1 = true ↔ ((1 : ℚ) ≠ 0 ∧ (1 : ℚ) ≤ 1) :=
  C1_alert_guard_amended 1 1 (by norm_num) (by norm_num) (by norm_num)
    (by norm_num)

/-- C2: `get_fire_risk_zone_by_coords` returns a zone iff some stored zone's
tolerance box contains the query point, and any returned zone is a stored
matching zone whose timestamp is at least that of every matching zone. -/
theorem C2_find_by_coordinates (db : DB) (lat lon tol : ℚ) :
    ((∃ z ∈ db.fire_risk_zones, zoneBoxContains z lat lon tol) ↔
      ∃ w, get_fire_risk_zone_by_coords db lat lon tol = some w) ∧
    (∀ w, get_fire_risk_zone_by_coords db lat lon tol = some w →
      w ∈ db.fire_risk_zones ∧ zoneBoxContains w lat lon tol ∧
      ∀ z ∈ db.fire_risk_zones, zoneBoxContains z lat lon tol →
        z.timestamp ≤ w.timestamp) := by
  have h := by_coords_characterisation db lat lon tol
  constructor
  · rw [← h.1]
    constructor
    · rintro ⟨z, hz, hb⟩
      exact ⟨z, hz, (coordFilter_iff_zoneBoxContains lat lon tol z).mpr hb⟩
    · rintro ⟨z, hz, hf⟩
      exact ⟨z, hz, (coordFilter_iff_zoneBoxContains lat lon tol z).mp hf⟩
  · intro w hw
    rcases h.2 w hw with ⟨h1, h2, h3⟩
    exact ⟨h1, (coordFilter_iff_zoneBoxContains lat lon tol w).mp h2,
      fun z hz hb =>
        h3 z hz ((coordFilter_iff_zoneBoxContains lat lon tol z).mpr hb)⟩

/-- C2 witness: the characterisation instantiated at `dbA` and the origin. -/
theorem C2_find_by_coordinates_witness :
    ((∃ z ∈ dbA.fire_risk_zones, zoneBoxContains z 0 0 (1/100)) ↔
      ∃ w, get_fire_risk_zone_by_coords dbA 0 0 (1/100) = some w) ∧
    (∀ w, get_fire_risk_zone_by_coords dbA 0 0 (1/100) = some w →
      w ∈ dbA.fire_risk_zones ∧ zoneBoxContains w 0 0 (1/100) ∧
      ∀ z ∈ dbA.fire_risk_zones, zoneBoxContains z 0 0 (1/100) →
        z.timestamp ≤ w.timestamp) :=
  C2_find_by_coordinates dbA 0 0 (1/100)

/-- C3: zone creation fails (and inserts nothing) exactly when `risk_level`
lies outside `[0, 1]` or `risk_category` is not Low/Medium/High; on valid input
it succeeds and appends the new zone. -/
theorem C3_create_zone_validation (db : DB) (c : FireRiskZoneCreate)
    (now : Int) :
    (¬ (0 ≤ c.risk_level ∧ c.risk_level ≤ 1 ∧
        c.risk_category ∈ validRiskCategories) →
      ∃ e, create_fire_risk_zone_checked db c now = (Except.error e, db)) ∧
    ((0 ≤ c.risk_level ∧ c.risk_level ≤ 1 ∧
        c.risk_category ∈ validRiskCategories) →
      ∃ z, create_fire_risk_zone_checked db c now =
        (Except.ok z,
          { db with fire_risk_zones := db.fire_risk_zones ++ [z] })) := by
  constructor
  · intro hbad
    unfold create_fire_risk_zone_checked validateFireRiskZone
    by_cases h1 : c.risk_level < 0 ∨ c.risk_level > 1
    · rw [if_pos h1]
      exact ⟨_, rfl⟩
    · by_cases h2 : c.risk_category ∉ validRiskCategories
      · rw [if_neg h1, if_pos h2]
        exact ⟨_, rfl⟩
      · exfalso
        push_neg at h1
        exact hbad ⟨h1.1, h1.2, not_not.mp h2⟩
  · rintro ⟨ha, hb, hc⟩
    unfold create_fire_risk_zone_checked validateFireRiskZone
    rw [if_neg (by push_neg; exact ⟨ha, hb⟩), if_neg (not_not.mpr hc)]
    exact ⟨_, rfl⟩

/-- C3 witness: creating the valid payload `createA` succeeds and appends. -/
theorem C3_create_zone_validation_witness :
    ∃ z, create_fire_risk_zone_checked dbA createA 0 =
      (Except.ok z,
        { dbA with fire_risk_zones := dbA.fire_risk_zones ++ [z] }) :=
  (C3_create_zone_validation dbA createA 0).2
    ⟨by norm_num [createA], by norm_num [createA], by simp [createA, validRiskCategories]⟩

/-- C4: the zone listing is a `(skip, limit)` slice of a sequence that is a
permutation of the zones passing all the given filters, sorted by risk level
descending. -/
theorem C4_list_zones (db : DB) (skip limit : Nat) (minR maxR : Option ℚ)
    (region cat : Option String) :
    ∃ full : List FireRiskZone,
      full.Perm (db.fire_risk_zones.filter (zoneFilter minR maxR region cat)) ∧
      (∀ z, z ∈ full ↔
        z ∈ db.fire_risk_zones ∧ zoneFilter minR maxR region cat z = true) ∧
      full.Pairwise (fun a b => b.risk_level ≤ a.risk_level) ∧
      get_fire_risk_zones db skip limit minR maxR region cat =
        (full.drop skip).take limit := by
  refine ⟨(db.fire_risk_zones.filter (zoneFilter minR maxR region cat)).mergeSort
      (fun a b => decide (b.risk_level ≤ a.risk_level)),
    List.mergeSort_perm _ _, ?_,
    pairwise_mergeSort_key_desc (fun z : FireRiskZone => z.risk_level) _, rfl⟩
  intro z
  rw [(List.mergeSort_perm _ _).mem_iff, List.mem_filter]

/-- C4 witness: the listing characterisation instantiated at `dbA`. -/
theorem C4_list_zones_witness :
    ∃ full : List FireRiskZone,
      full.Perm (dbA.fire_risk_zones.filter (zoneFilter none none none none)) ∧
      (∀ z, z ∈ full ↔
        z ∈ dbA.fire_risk_zones ∧ zoneFilter none none none none z = true) ∧
      full.Pairwise (fun a b => b.risk_level ≤ a.risk_level) ∧
      get_fire_risk_zones dbA 0 100 none none none none =
        (full.drop 0).take 100 :=
  C4_list_zones dbA 0 100 none none none none

/-- C5: the incident listing is a `(skip, limit)` slice of a sequence that is a
permutation of the incidents passing all the given filters, sorted by start
date descending; with a non-empty region filter every listed incident has an
owning zone whose region name matches. -/
theorem C5_list_incidents (db : DB) (skip limit : Nat)
    (region : Option String) (d1 d2 : Option Int)
    (status severity : Option String) :
    ∃ full : List FireIncident,
      full.Perm (db.fire_incidents.filter
        (incidentFilter db region d1 d2 status severity)) ∧
      (∀ i, i ∈ full ↔ i ∈ db.fire_incidents ∧
        incidentFilter db region d1 d2 status severity i = true) ∧
      full.Pairwise (fun a b => b.start_date ≤ a.start_date) ∧
      (∀ i ∈ full, ∀ s, region = some s → s ≠ "" →
        ∃ z ∈ db.fire_risk_zones, z.id = i.risk_zone_id ∧
          strILike z.region_name s = true) ∧
      get_fire_incidents db skip limit region d1 d2 status severity =
        (full.drop skip).take limit := by
  refine ⟨(db.fire_incidents.filter
      (incidentFilter db region d1 d2 status severity)).mergeSort
      (fun a b => decide (b.start_date ≤ a.start_date)),
    List.mergeSort_perm _ _, ?_,
    pairwise_mergeSort_key_desc (fun i : FireIncident => i.start_date) _,
    ?_, rfl⟩
  · intro i
    rw [(List.mergeSort_perm _ _).mem_iff, List.mem_filter]
  · intro i hi s hs hne
    have hmem : i ∈ db.fire_incidents.filter
        (incidentFilter db region d1 d2 status severity) :=
      (List.mergeSort_perm _ _).mem_iff.mp hi
    have hf := (List.mem_filter.mp hmem).2
    subst hs
    simp only [incidentFilter, Bool.and_eq_true] at hf
    have hjoin := hf.1.1.1.1
    rw [if_neg hne] at hjoin
    rcases List.any_eq_true.mp hjoin with ⟨z, hz, hpz⟩
    have hpz' : (z.id == i.risk_zone_id) = true ∧
        strILike z.region_name s = true := by simpa using hpz
    exact ⟨z, hz, eq_of_beq hpz'.1, hpz'.2⟩

/-- C5 witness: the incident listing characterisation instantiated at `dbA`. -/
theorem C5_list_incidents_witness :
    ∃ full : List FireIncident,
      full.Perm (dbA.fire_incidents.filter
        (incidentFilter dbA none none none none none)) ∧
      (∀ i, i ∈ full ↔ i ∈ dbA.fire_incidents ∧
        incidentFilter dbA none none none none none i = true) ∧
      full.Pairwise (fun a b => b.start_date ≤ a.start_date) ∧
      (∀ i ∈ full, ∀ s, (none : Option String) = some s → s ≠ "" →
        ∃ z ∈ dbA.fire_risk_zones, z.id = i.risk_zone_id ∧
          strILike z.region_name s = true) ∧
      get_fire_incidents dbA 0 100 none none none none none =
        (full.drop 0).take 100 :=
  C5_list_incidents dbA 0 100 none none none none none

/-- C6: for a stored saved region, the delete endpoint answers 403 and leaves
the store untouched when the requester neither owns the region nor is a
superuser; an owner or superuser gets success, after which no region with that
id remains stored. -/
theorem C6_delete_saved_region_auth (db : DB) (region_id : Nat) (u : User)
    (region : SavedRegion)
    (hfind : (db.saved_regions.filter
      (fun r => r.id == region_id)).head? = some region)
    (hnodup : (db.saved_regions.map SavedRegion.id).Nodup) :
    (region.user_id ≠ u.id ∧ u.is_superuser = false →
      delete_saved_region_endpoint db region_id u =
        (Except.error
          (ApiError.forbidden ("Not enough permissions to delete this region")),
          db)) ∧
    ((region.user_id = u.id ∨ u.is_superuser = true) →
      delete_saved_region_endpoint db region_id u =
        (Except.ok ("Saved region deleted successfully"),
          { db with saved_regions :=
            db.saved_regions.filter (fun r => !(r.id == region_id)) }) ∧
      region ∉ db.saved_regions.filter (fun r => !(r.id == region_id))) := by
  have hdel : delete_saved_region db region_id =
      (true, { db with saved_regions :=
        db.saved_regions.eraseP (fun r => r.id == region_id) }) := by
    unfold delete_saved_region
    rw [hfind]
  have hkey : delete_saved_region_endpoint db region_id u =
      (if region.user_id != u.id && !u.is_superuser then
        (Except.error
          (ApiError.forbidden ("Not enough permissions to delete this region")),
          db)
      else
        let r := delete_saved_region db region_id
        if r.1 then (Except.ok ("Saved region deleted successfully"), r.2)
        else (Except.error
          (ApiError.serverError ("Error deleting saved region")), r.2)) := by
    unfold delete_saved_region_endpoint
    rw [hfind]
  have hregion := List.mem_filter.mp (mem_of_head?_eq hfind)
  constructor
  · rintro ⟨hne, hsu⟩
    have hb : (region.user_id != u.id && !u.is_superuser) = true := by
      simp [hne, hsu]
    rw [hkey, if_pos hb]
  · intro hauth
    have hb : (region.user_id != u.id && !u.is_superuser) = false := by
      rcases hauth with h | h
      · simp [h]
      · simp [h]
    constructor
    · rw [hkey, if_neg (by simp [hb])]
      simp only [hdel, if_true]
      rw [eraseP_eq_filter_of_nodup_keys SavedRegion.id db.saved_regions
        region_id hnodup]
    · intro hmem
      have := (List.mem_filter.mp hmem).2
      rw [hregion.2] at this
      simp at this

/-- C6 witness: a non-owning, non-superuser delete of `regionA` is rejected
with the store unchanged. -/
theorem C6_delete_saved_region_auth_witness :
    delete_saved_region_endpoint dbR 1 uStranger =
      (Except.error
        (ApiError.forbidden ("Not enough permissions to delete this region")),
        dbR) :=
  (C6_delete_saved_region_auth dbR 1 uStranger regionA (by rfl)
    (by simp [dbR, regionA])).1 (by simp [regionA, uStranger])

/-- C7: when some stored zone in the default 0.01-degree box is less than one
hour old, the prediction endpoint returns a stored zone (the freshest match)
and changes no state: no zone and no alert is created. -/
theorem C7_predict_recent_frame (db : DB) (lat lon : ℚ) (req : Option String)
    (u : User) (now : Int) (draws : RandomDraws)
    (h : ∃ z ∈ db.fire_risk_zones, zoneBoxContains z lat lon 0.01 ∧
      now - oneHour < z.timestamp) :
    ∃ w, get_fire_risk_zone_by_coords db lat lon 0.01 = some w ∧
      w ∈ db.fire_risk_zones ∧ now - oneHour < w.timestamp ∧
      predict_fire_risk_zone db lat lon req u now draws = (w, db) := by
  rcases h with ⟨z, hz, hbox, hfresh⟩
  have hchar := by_coords_characterisation db lat lon 0.01
  rcases hchar.1.mp
    ⟨z, hz, (coordFilter_iff_zoneBoxContains lat lon 0.01 z).mpr hbox⟩
    with ⟨w, hw⟩
  rcases hchar.2 w hw with ⟨hwmem, _hwf, hmax⟩
  have hts : z.timestamp ≤ w.timestamp :=
    hmax z hz ((coordFilter_iff_zoneBoxContains lat lon 0.01 z).mpr hbox)
  have hwfresh : now - oneHour < w.timestamp := lt_of_lt_of_le hfresh hts
  refine ⟨w, hw, hwmem, hwfresh, ?_⟩
  unfold predict_fire_risk_zone
  rw [hw]
  show (if now - oneHour < w.timestamp then (w, db)
    else predictFreshPath db lat lon req u now draws) = (w, db)
  rw [if_pos hwfresh]

/-- C7 witness: at `dbA` with `now` equal to `zoneA`'s timestamp, the
prediction returns a stored zone and leaves the database unchanged. -/
theorem C7_predict_recent_frame_witness :
    ∃ w, get_fire_risk_zone_by_coords dbA 0 0 0.01 = some w ∧
      w ∈ dbA.fire_risk_zones ∧ 1000 - oneHour < w.timestamp ∧
      predict_fire_risk_zone dbA 0 0 none userA 1000 drawsA = (w, dbA) :=
  C7_predict_recent_frame dbA 0 0 none userA 1000 drawsA
    ⟨zoneA, by simp [dbA], by norm_num [zoneBoxContains, zoneA],
      by norm_num [oneHour, zoneA]⟩

/-- C8: `create_alert_for_user` returns and appends an alert carrying exactly
the given user, zone, risk level and message, with all three notification
flags false; every pre-existing alert row is kept unchanged and the other
tables are untouched. -/
theorem C8_create_alert_fields (db : DB) (user_id risk_zone_id : Nat)
    (risk_level : ℚ) (message : String) (now : Int) :
    (create_alert_for_user db user_id risk_zone_id risk_level message now).1.user_id = user_id ∧
    (create_alert_for_user db user_id risk_zone_id risk_level message now).1.risk_zone_id = risk_zone_id ∧
    (create_alert_for_user db user_id risk_zone_id risk_level message now).1.risk_level = risk_level ∧
    (create_alert_for_user db user_id risk_zone_id risk_level message now).1.message = message ∧
    (create_alert_for_user db user_id risk_zone_id risk_level message now).1.is_read = false ∧
    (create_alert_for_user db user_id risk_zone_id risk_level message now).1.is_sent_email = false ∧
    (create_alert_for_user db user_id risk_zone_id risk_level message now).1.is_sent_sms = false ∧
    (create_alert_for_user db user_id risk_zone_id risk_level message now).2.alerts =
      db.alerts ++ [(create_alert_for_user db user_id risk_zone_id risk_level message now).1] ∧
    (create_alert_for_user db user_id risk_zone_id risk_level message now).2.fire_risk_zones =
      db.fire_risk_zones ∧
    (create_alert_for_user db user_id risk_zone_id risk_level message now).2.fire_incidents =
      db.fire_incidents ∧
    (create_alert_for_user db user_id risk_zone_id risk_level message now).2.saved_regions =
      db.saved_regions ∧
    (∀ a ∈ db.alerts,
      a ∈ (create_alert_for_user db user_id risk_zone_id risk_level message now).2.alerts) := by
  refine ⟨rfl, rfl, rfl, rfl, rfl, rfl, rfl, rfl, rfl, rfl, rfl, ?_⟩
  intro a ha
  exact List.mem_append_left _ ha

/-- C8 witness: the field characterisation instantiated at `dbA`. -/
theorem C8_create_alert_fields_witness :
    (create_alert_for_user dbA 1 1 1 ("msg") 0).1.user_id = 1 ∧
    (create_alert_for_user dbA 1 1 1 ("msg") 0).1.risk_zone_id = 1 ∧
    (create_alert_for_user dbA 1 1 1 ("msg") 0).1.risk_level = 1 ∧
    (create_alert_for_user dbA 1 1 1 ("msg") 0).1.message = "msg" ∧
    (create_alert_for_user dbA 1 1 1 ("msg") 0).1.is_read = false ∧
    (create_alert_for_user dbA 1 1 1 ("msg") 0).1.is_sent_email = false ∧
    (create_alert_for_user dbA 1 1 1 ("msg") 0).1.is_sent_sms = false ∧
    (create_alert_for_user dbA 1 1 1 ("msg") 0).2.alerts =
      dbA.alerts ++ [(create_alert_for_user dbA 1 1 1 ("msg") 0).1] ∧
    (create_alert_for_user dbA 1 1 1 ("msg") 0).2.fire_risk_zones =
      dbA.fire_risk_zones ∧
    (create_alert_for_user dbA 1 1 1 ("msg") 0).2.fire_incidents =
      dbA.fire_incidents ∧
    (create_alert_for_user dbA 1 1 1 ("msg") 0).2.saved_regions =
      dbA.saved_regions ∧
    (∀ a ∈ dbA.alerts,
      a ∈ (create_alert_for_user dbA 1 1 1 ("msg") 0).2.alerts) :=
  C8_create_alert_fields dbA 1 1 1 ("msg") 0

/-- C9: deleting an id that is not stored fails without a silent success and
changes nothing: both service functions answer `false` with the state intact,
and both endpoints answer 404 with the state intact. -/
theorem C9_delete_missing (db : DB) (zone_id region_id : Nat) (u : User)
    (hz : ∀ z ∈ db.fire_risk_zones, z.id ≠ zone_id)
    (hr : ∀ r ∈ db.saved_regions, r.id ≠ region_id) :
    delete_fire_risk_zone db zone_id = (false, db) ∧
    delete_saved_region db region_id = (false, db) ∧
    delete_fire_risk_zone_endpoint db zone_id =
      (Except.error (ApiError.notFound ("Fire risk zone not found")), db) ∧
    delete_saved_region_endpoint db region_id u =
      (Except.error (ApiError.notFound ("Saved region not found")), db) := by
  have hzf : db.fire_risk_zones.filter (fun z => z.id == zone_id) = [] :=
    List.filter_eq_nil_iff.mpr (fun z hmem => by simpa using hz z hmem)
  have hrf : db.saved_regions.filter (fun r => r.id == region_id) = [] :=
    List.filter_eq_nil_iff.mpr (fun r hmem => by simpa using hr r hmem)
  have hg : get_fire_risk_zone db zone_id = none := by
    simp [get_fire_risk_zone, hzf]
  refine ⟨?_, ?_, ?_, ?_⟩
  · simp [delete_fire_risk_zone, hg]
  · simp [delete_saved_region, hrf]
  · simp [delete_fire_risk_zone_endpoint, hg]
  · simp [delete_saved_region_endpoint, hrf]

/-- C9 witness: deleting the absent ids 2 from `dbA` fails everywhere with the
state unchanged. -/
theorem C9_delete_missing_witness :
    delete_fire_risk_zone dbA 2 = (false, dbA) ∧
    delete_saved_region dbA 2 = (false, dbA) ∧
    delete_fire_risk_zone_endpoint dbA 2 =
      (Except.error (ApiError.notFound ("Fire risk zone not found")), dbA) ∧
    delete_saved_region_endpoint dbA 2 uStranger =
      (Except.error (ApiError.notFound ("Saved region not found")), dbA) :=
  C9_delete_missing dbA 2 2 uStranger (by simp [dbA, zoneA]) (by simp [dbA])

/-- C10: the saved-region listing for a user is the `(skip, limit)` contiguous
slice of exactly that user's regions taken in stored (insertion) order. -/
theorem C10_saved_regions_listing (db : DB) (user_id skip limit : Nat) :
    ∃ mine : List SavedRegion,
      List.Sublist mine db.saved_regions ∧
      (∀ s, s ∈ mine ↔ s ∈ db.saved_regions ∧ s.user_id = user_id) ∧
      mine = mine.take skip ++
        ((mine.drop skip).take limit ++ (mine.drop skip).drop limit) ∧
      get_saved_regions_by_user db user_id skip limit =
        (mine.drop skip).take limit := by
  refine ⟨db.saved_regions.filter (fun r => r.user_id == user_id),
    List.filter_sublist _, ?_, ?_, rfl⟩
  · intro s
    simp [List.mem_filter]
  · rw [List.take_append_drop, List.take_append_drop]

/-- C10 witness: the listing characterisation instantiated at `dbR`. -/
theorem C10_saved_regions_listing_witness :
    ∃ mine : List SavedRegion,
      List.Sublist mine dbR.saved_regions ∧
      (∀ s, s ∈ mine ↔ s ∈ dbR.saved_regions ∧ s.user_id = 5) ∧
      mine = mine.take 0 ++
        ((mine.drop 0).take 100 ++ (mine.drop 0).drop 100) ∧
      get_saved_regions_by_user dbR 5 0 100 = (mine.drop 0).take 100 :=
  C10_saved_regions_listing dbR 5 0 100

end ForestFire
